import Mathlib

/-!
Shallow embedding of the SafeCircle backend's presence / location / SOS core.

The definitions below are translated from the JavaScript sources:
* `src/backend/src/routes/locations.js` — the REST location routes with
  `checkLocationPermission`, and (same file, second document) the Socket.IO
  server (`activeUsers` map, `join` / `location_update` / `sos_alert` /
  `disconnect` handlers).
* the SOS route file (`POST /api/sos/trigger`, `PUT /api/sos/alerts/:id/resolve`,
  `sendSOSNotification`).

Supabase tables become lists of records inside an explicit `Store` /
`RtState`; the external FCM / SMS transports become oracle functions inside
`DeliveryEnv` (a push send may throw, the SMS stub in the source never
throws); timestamps are abstract `Nat`s supplied by the environment.
-/

set_option autoImplicit false

namespace SafeCircle

/-- Connection status values used by `user_connections` rows. -/
inductive ConnStatus where
  | pending
  | accepted
  | declined
  | blocked
deriving DecidableEq, Repr

/-- A row of `user_connections` (`requester_id`, `addressee_id`, `status`). -/
structure Connection where
  requester_id : Nat
  addressee_id : Nat
  status : ConnStatus
deriving DecidableEq, Repr

/-- A row of `family_members` (`family_id`, `user_id`). -/
structure FamilyMember where
  family_id : Nat
  user_id : Nat
deriving DecidableEq, Repr

/-- A row of `location_permissions`: `user_id` is the subject (owner of the
location), `shared_with_user_id` the viewer.  The schema declares an optional
`expires_at` column ("Optional temporary sharing"); it is carried here so that
one can observe that the code never consults it. -/
structure LocationPermission where
  user_id : Nat
  shared_with_user_id : Nat
  is_enabled : Bool
  expires_at : Option Nat
deriving DecidableEq, Repr

/-- The relationship data `checkLocationPermission` queries from the store. -/
structure RelData where
  connections : List Connection
  familyMembers : List FamilyMember
  permissions : List LocationPermission
deriving DecidableEq, Repr

/-- The helper `checkLocationPermission(requesterId, targetUserId)` from
`src/backend/src/routes/locations.js` (lines 264-301): self, then an accepted
connection in either direction, then shared family membership (the source's
`family_id IN (subquery)` pattern, i.e. a membership row of the requester whose
family also has a membership row of the target), then an explicit enabled
permission from target to requester.  The `expires_at` column is not filtered
by the source query and is accordingly ignored here. -/
def checkLocationPermission (requesterId targetUserId : Nat) (rel : RelData) : Bool :=
  if requesterId = targetUserId then true
  else if rel.connections.any (fun c =>
      c.status == ConnStatus.accepted &&
      ((c.requester_id == requesterId && c.addressee_id == targetUserId) ||
       (c.requester_id == targetUserId && c.addressee_id == requesterId))) then true
  else if rel.familyMembers.any (fun m =>
      m.user_id == requesterId &&
      rel.familyMembers.any (fun n => n.user_id == targetUserId && n.family_id == m.family_id)) then true
  else rel.permissions.any (fun p =>
      p.user_id == targetUserId && p.shared_with_user_id == requesterId && p.is_enabled)

/-- The spec's `canView` rule (spec §4.2), written from the spec's words for
comparison with `checkLocationPermission`: identical except that an explicit
grant only counts when it is enabled and, if it has an expiry, has not
expired at the evaluation instant `now`. -/
def canViewSpec (now viewer subject : Nat) (rel : RelData) : Bool :=
  if viewer = subject then true
  else if rel.connections.any (fun c =>
      c.status == ConnStatus.accepted &&
      ((c.requester_id == viewer && c.addressee_id == subject) ||
       (c.requester_id == subject && c.addressee_id == viewer))) then true
  else if rel.familyMembers.any (fun m =>
      m.user_id == viewer &&
      rel.familyMembers.any (fun n => n.user_id == subject && n.family_id == m.family_id)) then true
  else rel.permissions.any (fun p =>
      p.user_id == subject && p.shared_with_user_id == viewer && p.is_enabled &&
      (match p.expires_at with
       | none => true
       | some t => now < t))

/-! ### The JS `Map` used as the presence registry

`const activeUsers = new Map()` maps a userId to a socketId.  `Map.set`
replaces an existing binding, `Map.get` returns the bound value or
`undefined`, `Map.delete` removes the binding. -/

/-- JS `Map.delete k`: remove the binding of `k` (a no-op when absent). -/
def mapDelete (k : Nat) : List (Nat × Nat) → List (Nat × Nat)
  | [] => []
  | e :: m => if e.1 = k then mapDelete k m else e :: mapDelete k m

/-- JS `Map.set k v`: bind `k` to `v`, replacing any previous binding. -/
def mapSet (k v : Nat) (m : List (Nat × Nat)) : List (Nat × Nat) :=
  (k, v) :: mapDelete k m

/-- JS `Map.get k`: the bound value, or `none` when absent. -/
def mapGet (k : Nat) : List (Nat × Nat) → Option Nat
  | [] => none
  | e :: m => if e.1 = k then some e.2 else mapGet k m

/-! ### SOS REST route (`POST /api/sos/trigger`, `PUT /alerts/:id/resolve`) -/

/-- The `notification_type` column: the SOS code writes only `push` or `sms`. -/
inductive NotifType where
  | push
  | sms
deriving DecidableEq, Repr

/-- The `status` column of `sos_alerts`. -/
inductive AlertStatus where
  | active
  | resolved
  | false_alarm
deriving DecidableEq, Repr

/-- A row of `emergency_contacts`. -/
structure Contact where
  id : Nat
  user_id : Nat
  contact_user_id : Option Nat
  contact_name : String
  contact_phone : Option String
  contact_email : Option String
  priority : Nat
deriving DecidableEq, Repr

/-- A row of `sos_alerts`. -/
structure SOSAlert where
  id : Nat
  user_id : Nat
  latitude : Int
  longitude : Int
  message : String
  status : AlertStatus
  is_resolved : Bool
  created_at : Nat
  resolved_at : Option Nat
deriving DecidableEq, Repr

/-- A row of `sos_notifications`. -/
structure NotificationRecord where
  sos_alert_id : Nat
  recipient_user_id : Option Nat
  recipient_phone : Option String
  recipient_email : Option String
  notification_type : NotifType
  is_delivered : Bool
  delivered_at : Option Nat
deriving DecidableEq, Repr

/-- Environment for a dispatch: the `users.fcm_token` column, whether the
FCM HTTP post for a given token throws (the route-level `sendFCMNotification`
has no try/catch, so a transport error propagates), and the wall clock.  The
`sendSMS` helper in the source is a logging stub and never throws. -/
structure DeliveryEnv where
  fcmToken : Nat → Option String
  pushThrows : String → Bool
  now : Nat

/-- Outcome of `sendSOSNotification` for one contact: which channel sends were
attempted (in order), the `sos_notifications` row that was inserted, and
whether the promise fulfilled (it rejects when the push send threw). -/
structure NotifyResult where
  attempts : List NotifType
  record : NotificationRecord
  fulfilled : Bool
deriving DecidableEq, Repr

/-- The helper `sendSOSNotification(contact, user, alert)` from the SOS route file
(lines 465-539).  Inside one `try`: if the contact is an app user with an
`fcm_token`, await the FCM send (which may throw), then set
`notificationType='push'`, `isDelivered=true`; if a phone is present, await
the SMS stub and set `isDelivered=true`; finally insert one
`sos_notifications` row.  The `catch` inserts a row with the
`notificationType` variable as it stood when the throw happened (still
`'sms'`, since the `'push'` assignment follows the awaited send), with
`is_delivered=false` and no `recipient_email` / `delivered_at` fields, and
rethrows. -/
def sendSOSNotification (c : Contact) (alert : SOSAlert) (env : DeliveryEnv) : NotifyResult :=
  let failRecord : NotificationRecord :=
    { sos_alert_id := alert.id
      recipient_user_id := c.contact_user_id
      recipient_phone := c.contact_phone
      recipient_email := none
      notification_type := NotifType.sms
      is_delivered := false
      delivered_at := none }
  let okRecord : NotifType → NotificationRecord := fun ty =>
    { sos_alert_id := alert.id
      recipient_user_id := c.contact_user_id
      recipient_phone := c.contact_phone
      recipient_email := c.contact_email
      notification_type := ty
      is_delivered := true
      delivered_at := some env.now }
  match c.contact_user_id with
  | some cu =>
    match env.fcmToken cu with
    | some tok =>
      if env.pushThrows tok then
        { attempts := [NotifType.push], record := failRecord, fulfilled := false }
      else
        match c.contact_phone with
        | some _ =>
          { attempts := [NotifType.push, NotifType.sms]
            record := okRecord NotifType.push
            fulfilled := true }
        | none =>
          { attempts := [NotifType.push]
            record := okRecord NotifType.push
            fulfilled := true }
    | none =>
      match c.contact_phone with
      | some _ =>
        { attempts := [NotifType.sms], record := okRecord NotifType.sms, fulfilled := true }
      | none =>
        { attempts := [], record := failRecord, fulfilled := true }
  | none =>
    match c.contact_phone with
    | some _ =>
      { attempts := [NotifType.sms], record := okRecord NotifType.sms, fulfilled := true }
    | none =>
      { attempts := [], record := failRecord, fulfilled := true }

/-- The store tables the SOS route touches, plus the id the next inserted
alert row receives. -/
structure Store where
  alerts : List SOSAlert
  notifications : List NotificationRecord
  contacts : List Contact
  nextAlertId : Nat
deriving DecidableEq, Repr

/-- Ascending insertion for `order('priority')`. -/
def insertByPriority (c : Contact) : List Contact → List Contact
  | [] => [c]
  | d :: ds =>
    if c.priority ≤ d.priority then c :: d :: ds else d :: insertByPriority c ds

/-- Stable ascending sort for `order('priority')`. -/
def orderByPriority : List Contact → List Contact
  | [] => []
  | c :: cs => insertByPriority c (orderByPriority cs)

/-- The `emergency_contacts` rows of one owner, ordered by priority ascending
(the route's `.eq('user_id', userId).order('priority')`). -/
def contactsFor (uid : Nat) (st : Store) : List Contact :=
  orderByPriority (st.contacts.filter (fun c => c.user_id == uid))

/-- Result of `POST /api/sos/trigger`. -/
inductive TriggerResult where
  | invalidLocation
  | noContacts
  | ok (alertId notificationsSent totalContacts : Nat)
deriving DecidableEq, Repr

/-- The route `POST /api/sos/trigger` (SOS route file, lines 218-288), in the source's
order: validate that coordinates are present; insert the `sos_alerts` row
(status `active`, defaulted message); only then load the owner's emergency
contacts and, if the list is empty, answer with the no-contacts error —
the alert row inserted just before stays in the store.  Otherwise run
`sendSOSNotification` per contact under `Promise.allSettled`, append every
produced `sos_notifications` row, and answer with
`notificationsSent` = the number of fulfilled promises and
`totalContacts` = the number of contacts. -/
def triggerSOS (uid : Nat) (userName : String) (lat lon : Option Int) (msg : Option String)
    (env : DeliveryEnv) (st : Store) : TriggerResult × Store :=
  match lat, lon with
  | some la, some lo =>
    let alert : SOSAlert :=
      { id := st.nextAlertId
        user_id := uid
        latitude := la
        longitude := lo
        message := msg.getD ("EMERGENCY! " ++ userName ++ " needs help!")
        status := AlertStatus.active
        is_resolved := false
        created_at := env.now
        resolved_at := none }
    let st1 : Store :=
      { st with alerts := st.alerts ++ [alert], nextAlertId := st.nextAlertId + 1 }
    let cs := contactsFor uid st1
    if cs.isEmpty then
      (TriggerResult.noContacts, st1)
    else
      let results := cs.map (fun c => sendSOSNotification c alert env)
      let st2 : Store :=
        { st1 with notifications := st1.notifications ++ results.map (fun r => r.record) }
      (TriggerResult.ok alert.id (results.filter (fun r => r.fulfilled)).length cs.length, st2)
  | _, _ => (TriggerResult.invalidLocation, st)

/-- Result of `PUT /api/sos/alerts/:alertId/resolve`. -/
inductive ResolveResult where
  | unauthorized
  | ok
deriving DecidableEq, Repr

/-- The route `PUT /api/sos/alerts/:alertId/resolve` (SOS route file, lines 355-404):
fetch the alert's `user_id`; a missing or non-owned alert is rejected with
the 403 unauthorized answer.  Otherwise unconditionally update the row to
`status='resolved'`, `is_resolved=true`, `resolved_at=now` — the current
status is not consulted, so a second call succeeds again and overwrites
`resolved_at`. -/
def resolveAlert (alertId callerId now : Nat) (st : Store) : ResolveResult × Store :=
  match st.alerts.find? (fun a => a.id == alertId) with
  | none => (ResolveResult.unauthorized, st)
  | some a =>
    if a.user_id = callerId then
      (ResolveResult.ok,
        { st with
          alerts := st.alerts.map (fun b =>
            if b.id == alertId then
              { b with
                status := AlertStatus.resolved
                is_resolved := true
                resolved_at := some now }
            else b) })
    else (ResolveResult.unauthorized, st)

/-! ### Socket.IO server (second document of `locations.js`) -/

/-- The `data` payload of a `location_update` socket event, as destructured
by the handler. -/
structure LocPayload where
  userId : Nat
  latitude : Int
  longitude : Int
  accuracy : Int
  altitude : Int
  speed : Int
  heading : Int
deriving DecidableEq, Repr

/-- A row of `user_locations` as inserted by the handler. -/
structure LocationRow where
  user_id : Nat
  latitude : Int
  longitude : Int
  accuracy : Int
  altitude : Int
  speed : Int
  heading : Int
  timestamp : Nat
deriving DecidableEq, Repr

/-- The `user_locations` row the handler inserts: every column is taken from
the client payload `p` (in particular `user_id := p.userId`), the timestamp
from the server clock. -/
def mkLocationRow (p : LocPayload) (t : Nat) : LocationRow :=
  { user_id := p.userId
    latitude := p.latitude
    longitude := p.longitude
    accuracy := p.accuracy
    altitude := p.altitude
    speed := p.speed
    heading := p.heading
    timestamp := t }

/-- The `location_updated` event pushed to each authorized present viewer. -/
structure LocEvent where
  userId : Nat
  latitude : Int
  longitude : Int
  accuracy : Int
  timestamp : Nat
deriving DecidableEq, Repr

/-- State visible to the realtime handlers: the in-memory `activeUsers` map
(userId → socketId), the `user_locations` table, and the relationship
tables. -/
structure RtState where
  activeUsers : List (Nat × Nat)
  locations : List LocationRow
  rel : RelData
deriving DecidableEq, Repr

/-- Environment of one `location_update` handling: whether the insert into
`user_locations` reports an error, and the wall clock. -/
structure RtEnv where
  insertFails : Bool
  now : Nat
deriving DecidableEq, Repr

/-- Emissions of one `location_update` handling: the `location_updated`
pushes `(socketId, event)` and, on a failed insert, the `error` emit back to
the calling socket. -/
structure LocOutcome where
  pushes : List (Nat × LocEvent)
  errorTo : Option Nat
deriving DecidableEq, Repr

/-- The `socket.on('location_update')` handler (lines 376-425): insert a
`user_locations` row built entirely from the client payload (the identity
that joined on the socket, `socket.userId`, is in scope as `sockUser` but
never consulted); on insert error, emit `error` to the calling socket and
stop.  Otherwise select the `location_permissions` rows with
`user_id = payload.userId` and `is_enabled`, and for each one whose
`shared_with_user_id` is present in `activeUsers`, push a `location_updated`
event to that socket. -/
def handleLocationUpdate (sockId : Nat) (sockUser : Option Nat) (p : LocPayload)
    (env : RtEnv) (st : RtState) : LocOutcome × RtState :=
  let _ := sockUser
  if env.insertFails then
    ({ pushes := [], errorTo := some sockId }, st)
  else
    let row := mkLocationRow p env.now
    let perms := st.rel.permissions.filter (fun q => q.user_id == p.userId && q.is_enabled)
    let pushes := perms.filterMap (fun q =>
      (mapGet q.shared_with_user_id st.activeUsers).map (fun sid =>
        (sid,
          ({ userId := p.userId
             latitude := p.latitude
             longitude := p.longitude
             accuracy := p.accuracy
             timestamp := row.timestamp } : LocEvent))))
    ({ pushes := pushes, errorTo := none },
      { st with locations := st.locations ++ [row] })

/-- Connection-level state: which sockets are live, the `activeUsers`
presence map, and the `socket.userId` field each socket carries. -/
structure ConnState where
  live : List Nat
  activeUsers : List (Nat × Nat)
  sockUser : List (Nat × Nat)
deriving DecidableEq, Repr

/-- A socket connects (`io.on('connection')`): it becomes live; nothing else
changes until it emits `join`. -/
def connectEv (sock : Nat) (s : ConnState) : ConnState :=
  { s with live := sock :: s.live }

/-- The `socket.on('join')` handler (lines 369-373):
`activeUsers.set(userId, socket.id)` and `socket.userId = userId`. -/
def joinEv (sock uid : Nat) (s : ConnState) : ConnState :=
  { s with
    activeUsers := mapSet uid sock s.activeUsers
    sockUser := mapSet sock uid s.sockUser }

/-- The `socket.on('disconnect')` handler (lines 534-539): the socket stops
being live and, if it carries a `userId`, that user's `activeUsers` entry is
deleted unconditionally — without checking that the entry still points at
this socket. -/
def disconnectEv (sock : Nat) (s : ConnState) : ConnState :=
  let s1 : ConnState := { s with live := s.live.filter (fun t => t ≠ sock) }
  match mapGet sock s.sockUser with
  | some uid => { s1 with activeUsers := mapDelete uid s1.activeUsers }
  | none => s1

/-- Emissions and record of the per-contact body of the
`socket.on('sos_alert')` handler. -/
structure SosNotifyOut where
  liveEmitTo : Option Nat
  fcmSentTo : Option String
  smsSentTo : Option String
  record : NotificationRecord
deriving DecidableEq, Repr

/-- The per-contact body of `socket.on('sos_alert')` (lines 462-520): if the
contact is an app user, emit `sos_received` to its socket when present and
post an FCM push when a token exists (the server-level `sendFCMNotification`
catches its own errors, so this never throws); send the SMS stub when a
phone exists; then insert one `sos_notifications` row with
`notification_type` chosen by whether `contact_user_id` is set — `push`
even when no push was actually sent — and unconditionally
`is_delivered=true`, `delivered_at=now`. -/
def rtSosNotifyContact (c : Contact) (alertId : Nat) (env : DeliveryEnv)
    (active : List (Nat × Nat)) : SosNotifyOut :=
  let liveEmitTo :=
    match c.contact_user_id with
    | some cu => mapGet cu active
    | none => none
  let fcmSentTo := c.contact_user_id.bind env.fcmToken
  { liveEmitTo := liveEmitTo
    fcmSentTo := fcmSentTo
    smsSentTo := c.contact_phone
    record :=
      { sos_alert_id := alertId
        recipient_user_id := c.contact_user_id
        recipient_phone := c.contact_phone
        recipient_email := none
        notification_type :=
          if c.contact_user_id.isSome then NotifType.push else NotifType.sms
        is_delivered := true
        delivered_at := some env.now } }

/-! ### Lemmas about the `Map` model -/

theorem mapGet_mapSet_same (u h : Nat) (m : List (Nat × Nat)) :
    mapGet u (mapSet u h m) = some h := by
  simp [mapGet, mapSet]

theorem mapGet_mapDelete_same (u : Nat) (m : List (Nat × Nat)) :
    mapGet u (mapDelete u m) = none := by
  induction m with
  | nil => rfl
  | cons e m ih =>
    by_cases he : e.1 = u
    · simpa [mapDelete, he] using ih
    · simpa [mapDelete, mapGet, he] using ih

theorem mapGet_mapDelete_ne (k k' : Nat) (m : List (Nat × Nat)) (hne : k ≠ k') :
    mapGet k (mapDelete k' m) = mapGet k m := by
  induction m with
  | nil => rfl
  | cons e m ih =>
    by_cases he : e.1 = k'
    · simpa [mapDelete, mapGet, he, Ne.symm hne] using ih
    · by_cases hek : e.1 = k
      · simp [mapDelete, mapGet, he, hek, hne]
      · simpa [mapDelete, mapGet, he, hek] using ih

theorem mapGet_mapSet_ne (k k' v : Nat) (m : List (Nat × Nat)) (hne : k ≠ k') :
    mapGet k (mapSet k' v m) = mapGet k m := by
  have hk : k' ≠ k := fun hkk => hne hkk.symm
  simp [mapGet, mapSet, hk, mapGet_mapDelete_ne k k' m hne]

theorem mapGet_eq_none_of_forall_ne (u : Nat) (m : List (Nat × Nat))
    (h : ∀ p ∈ m, p.1 ≠ u) : mapGet u m = none := by
  induction m with
  | nil => rfl
  | cons e m ih =>
    have he : e.1 ≠ u := h e (List.mem_cons_self e m)
    simpa [mapGet, he] using ih (fun p hp => h p (List.mem_cons_of_mem e hp))

/-! ### Claim theorems: presence registry -/

/-- C7: `lookup(u)` is absent while `u` has no entry in the `activeUsers`
map; after `set(u,h)` it is `h`; after a subsequent `set(u,h2)` it is `h2`
and, the handles being distinct, no longer `h` — the latest connection wins
and the registry merely overwrites, it never touches the previous handle. -/
theorem presence_lookup_set_laws (m : List (Nat × Nat)) (u h h2 : Nat)
    (habsent : ∀ p ∈ m, p.1 ≠ u) (hne : h ≠ h2) :
    mapGet u m = none ∧
    mapGet u (mapSet u h m) = some h ∧
    mapGet u (mapSet u h2 (mapSet u h m)) = some h2 ∧
    mapGet u (mapSet u h2 (mapSet u h m)) ≠ some h := by
  refine ⟨mapGet_eq_none_of_forall_ne u m habsent, mapGet_mapSet_same u h m, mapGet_mapSet_same u h2 (mapSet u h m), ?_⟩
  rw [mapGet_mapSet_same u h2 (mapSet u h m)]
  simp
  exact fun hc => hne hc.symm

theorem presence_lookup_set_laws_witness :
    mapGet 1 [(2, 5)] = none ∧
    mapGet 1 (mapSet 1 3 [(2, 5)]) = some 3 ∧
    mapGet 1 (mapSet 1 4 (mapSet 1 3 [(2, 5)])) = some 4 ∧
    mapGet 1 (mapSet 1 4 (mapSet 1 3 [(2, 5)])) ≠ some 3 :=
  presence_lookup_set_laws [(2, 5)] 1 3 4 (by decide) (by decide)

/-- C8: after a user joins on connection `s1` and joins again on a distinct
connection `s2`, the disconnect of the stale socket `s1` unconditionally
deletes the user's presence entry (the handler deletes by `socket.userId`
without checking which socket the entry points at), so lookup returns absent
even though `s2` is still live. -/
theorem stale_disconnect_clears_presence_of_live_user
    (s : ConnState) (u s1 s2 : Nat) (hne : s1 ≠ s2) :
    s2 ∈ (disconnectEv s1 (joinEv s2 u (connectEv s2 (joinEv s1 u (connectEv s1 s))))).live ∧
    mapGet u (disconnectEv s1 (joinEv s2 u (connectEv s2 (joinEv s1 u (connectEv s1 s))))).activeUsers = none := by
  have hsock : mapGet s1 (mapSet s2 u (mapSet s1 u s.sockUser)) = some u := by
    rw [mapGet_mapSet_ne s1 s2 u _ hne, mapGet_mapSet_same]
  simp only [connectEv, joinEv, disconnectEv, hsock]
  constructor
  · rw [List.mem_filter]
    refine ⟨by simp, by simpa using hne.symm⟩
  · exact mapGet_mapDelete_same u _

theorem stale_disconnect_witness :
    11 ∈ (disconnectEv 10 (joinEv 11 1 (connectEv 11 (joinEv 10 1
      (connectEv 10 ⟨[], [], []⟩))))).live ∧
    mapGet 1 (disconnectEv 10 (joinEv 11 1 (connectEv 11 (joinEv 10 1
      (connectEv 10 ⟨[], [], []⟩))))).activeUsers = none :=
  stale_disconnect_clears_presence_of_live_user ⟨[], [], []⟩ 1 10 11 (by decide)

/-! ### Claim theorems: `location_update` handler -/

/-- C9: the `location_update` handler ignores the socket it arrived on and
the identity that joined there: any two sockets sending the same payload
produce the same pushes and the same resulting state, the state either stays
unchanged (failed insert) or gains exactly the row built from the payload,
and that row is persisted under the payload's `userId`. -/
theorem location_update_ignores_socket_identity
    (sA : Nat) (uA : Option Nat) (sB : Nat) (uB : Option Nat)
    (p : LocPayload) (env : RtEnv) (st : RtState) :
    (handleLocationUpdate sA uA p env st).1.pushes =
      (handleLocationUpdate sB uB p env st).1.pushes ∧
    (handleLocationUpdate sA uA p env st).2 = (handleLocationUpdate sB uB p env st).2 ∧
    ((handleLocationUpdate sA uA p env st).2 = st ∨
      (handleLocationUpdate sA uA p env st).2 =
        { st with locations := st.locations ++ [mkLocationRow p env.now] }) ∧
    (mkLocationRow p env.now).user_id = p.userId := by
  cases hf : env.insertFails <;> simp [handleLocationUpdate, hf, mkLocationRow]

/-! ### Claim theorems: `sos_alert` handler records -/

/-- C10: every `sos_notifications` row written by the Socket.IO `sos_alert`
path carries `is_delivered = true` and a `delivered_at` timestamp no matter
what the delivery attempts did, and its `notification_type` is `push`
exactly when the contact has a `contact_user_id` — even when no push was
actually sent (absent token, absent socket). -/
theorem rt_sos_record_always_delivered_push_label
    (c : Contact) (alertId : Nat) (env : DeliveryEnv) (active : List (Nat × Nat)) :
    (rtSosNotifyContact c alertId env active).record.is_delivered = true ∧
    (rtSosNotifyContact c alertId env active).record.delivered_at = some env.now ∧
    (rtSosNotifyContact c alertId env active).record.notification_type =
      (if c.contact_user_id.isSome then NotifType.push else NotifType.sms) :=
  ⟨rfl, rfl, rfl⟩

/-! ### Claim theorems: SOS trigger and resolve -/

/-- A delivery environment with no FCM tokens and a non-throwing transport. -/
def envStub : DeliveryEnv :=
  { fcmToken := fun _ => none, pushThrows := fun _ => false, now := 0 }

/-- A store holding no rows at all — in particular no emergency contacts. -/
def stNoContacts : Store :=
  { alerts := [], notifications := [], contacts := [], nextAlertId := 1 }

/-- C1: triggering SOS with valid coordinates for a user with zero emergency
contacts does answer with the distinct no-contacts error, but the
`sos_alerts` insert has already happened by then: the store ends up with a
created alert row.  The zero-contacts check does not precede the mutation. -/
theorem trigger_no_contacts_still_creates_alert :
    (triggerSOS 1 "Ada" (some 65244) (some 33792) none envStub stNoContacts).1 =
      TriggerResult.noContacts ∧
    (triggerSOS 1 "Ada" (some 65244) (some 33792) none envStub stNoContacts).2.alerts.length = 1 :=
  ⟨rfl, rfl⟩

/-- Contact with both an app-user id and a phone number. -/
def contactC2 : Contact :=
  { id := 1, user_id := 1, contact_user_id := some 2, contact_name := "Chi",
    contact_phone := some "+2348000000000", contact_email := none, priority := 1 }

/-- An active alert for the dispatch under test. -/
def alertC2 : SOSAlert :=
  { id := 7, user_id := 1, latitude := 65244, longitude := 33792, message := "help",
    status := AlertStatus.active, is_resolved := false, created_at := 3, resolved_at := none }

/-- Environment in which contact user 2 has an FCM token and the push
transport throws. -/
def envC2 : DeliveryEnv :=
  { fcmToken := fun u => if u == 2 then some "tok" else none,
    pushThrows := fun _ => true, now := 3 }

/-- C2: for a contact that has a phone number, when the live/push attempt
fails (the FCM send throws) the `catch` is entered before the SMS block is
reached: no SMS is attempted, only one channel was tried, and the single
logged record is undelivered.  The SMS backstop is not unconditional. -/
theorem push_failure_skips_sms_backup :
    contactC2.contact_phone.isSome = true ∧
    (sendSOSNotification contactC2 alertC2 envC2).attempts = [NotifType.push] ∧
    NotifType.sms ∉ (sendSOSNotification contactC2 alertC2 envC2).attempts ∧
    (sendSOSNotification contactC2 alertC2 envC2).record.is_delivered = false ∧
    (sendSOSNotification contactC2 alertC2 envC2).fulfilled = false :=
  ⟨rfl, rfl, by decide, rfl, rfl⟩

/-- An enabled grant from subject 2 to viewer 1 whose expiry (5) is in the
past at evaluation time 10. -/
def permExpired : LocationPermission :=
  { user_id := 2, shared_with_user_id := 1, is_enabled := true, expires_at := some 5 }

/-- Relationship data holding only the expired grant. -/
def relExpired : RelData :=
  { connections := [], familyMembers := [], permissions := [permExpired] }

/-- C5: `checkLocationPermission` never consults `expires_at`, so an
enabled grant that has already expired still authorizes the viewer; the
spec's rule (`canViewSpec`, which honours expiry) answers false on the same
data. -/
theorem expired_enabled_grant_still_views :
    checkLocationPermission 1 2 relExpired = true ∧
    canViewSpec 10 1 2 relExpired = false :=
  ⟨rfl, rfl⟩

/-! ### C3: socket broadcast audience -/

/-- Relationship data: viewer 7 has an accepted connection with subject 1
and no explicit location permission exists. -/
def relC3 : RelData :=
  { connections := [{ requester_id := 7, addressee_id := 1, status := ConnStatus.accepted }],
    familyMembers := [], permissions := [] }

/-- Realtime state: viewer 7 is present on socket 99. -/
def stC3 : RtState :=
  { activeUsers := [(7, 99)], locations := [], rel := relC3 }

/-- A location payload attributed to subject 1. -/
def payloadC3 : LocPayload :=
  { userId := 1, latitude := 65244, longitude := 33792, accuracy := 5,
    altitude := 0, speed := 0, heading := 0 }

/-- Environment for a successful insert. -/
def rtEnvOk : RtEnv := { insertFails := false, now := 4 }

/-- C3 counterexample: viewer 7 is authorized for subject 1 under the full
resolver rule (accepted connection) and is currently present, yet the
`location_update` handler pushes to nobody — its audience query reads only
the explicit `location_permissions` table. -/
theorem connected_present_viewer_gets_no_push :
    checkLocationPermission 7 1 relC3 = true ∧
    mapGet 7 stC3.activeUsers = some 99 ∧
    (handleLocationUpdate 42 (some 1) payloadC3 rtEnvOk stC3).1.pushes = [] :=
  ⟨rfl, rfl, rfl⟩

/-- C3 (amended): when the insert succeeds, a socket receives the
location-update push exactly when some enabled explicit permission row from
the subject names a viewer currently present on that socket; connection- or
family-authorized viewers without such a row get nothing, and absent
permission holders are skipped silently. -/
theorem broadcast_targets_iff_enabled_permission_and_present
    (sockId : Nat) (sockUser : Option Nat) (p : LocPayload) (env : RtEnv)
    (st : RtState) (sid : Nat) (hok : env.insertFails = false) :
    sid ∈ (handleLocationUpdate sockId sockUser p env st).1.pushes.map Prod.fst ↔
      ∃ q ∈ st.rel.permissions,
        q.user_id = p.userId ∧ q.is_enabled = true ∧
        mapGet q.shared_with_user_id st.activeUsers = some sid := by
  simp only [handleLocationUpdate, hok, Bool.false_eq_true, if_false, List.map_filterMap,
    List.mem_filterMap, List.mem_filter, Option.map_map, Option.map_eq_some',
    Bool.and_eq_true, beq_iff_eq]
  constructor
  · rintro ⟨q, ⟨hq, hu, he⟩, s', hs', rfl⟩
    exact ⟨q, hq, hu, he, hs'⟩
  · rintro ⟨q, hq, hu, he, hs'⟩
    exact ⟨q, ⟨hq, hu, he⟩, sid, hs', rfl⟩

/-- Permission row used by the C3 witness. -/
def permW : LocationPermission :=
  { user_id := 9, shared_with_user_id := 3, is_enabled := true, expires_at := none }

/-- Realtime state for the C3 witness: viewer 3 present on socket 55, one
enabled grant from subject 9 to viewer 3. -/
def stC3w : RtState :=
  { activeUsers := [(3, 55)], locations := [],
    rel := { connections := [], familyMembers := [], permissions := [permW] } }

/-- A location payload attributed to subject 9. -/
def payloadC3w : LocPayload :=
  { userId := 9, latitude := 1, longitude := 2, accuracy := 3,
    altitude := 0, speed := 0, heading := 0 }

theorem broadcast_targets_witness :
    55 ∈ (handleLocationUpdate 0 none payloadC3w rtEnvOk stC3w).1.pushes.map Prod.fst :=
  (broadcast_targets_iff_enabled_permission_and_present 0 none payloadC3w rtEnvOk stC3w 55
    rfl).mpr ⟨permW, by simp [stC3w], rfl, rfl, rfl⟩

/-! ### C4: resolving an alert twice -/

/-- An alert of user 1 that is already resolved, with `resolved_at = 5`. -/
def alertResolved : SOSAlert :=
  { id := 1, user_id := 1, latitude := 0, longitude := 0, message := "m",
    status := AlertStatus.resolved, is_resolved := true, created_at := 0,
    resolved_at := some 5 }

/-- A store holding only the already-resolved alert. -/
def stResolved : Store :=
  { alerts := [alertResolved], notifications := [], contacts := [], nextAlertId := 2 }

/-- C4 counterexample: resolving the already-resolved alert again at time 9
returns the plain ok outcome (the route has no already-resolved answer) and
overwrites `resolved_at` from 5 to 9 — the transition is not guarded by a
status check. -/
theorem second_resolve_returns_ok_and_overwrites_resolvedAt :
    (resolveAlert 1 1 9 stResolved).1 = ResolveResult.ok ∧
    (resolveAlert 1 1 9 stResolved).2.alerts.map (fun a => a.resolved_at) = [some 9] :=
  ⟨rfl, rfl⟩

/-- C4 (amended): a resolve call by the owner always succeeds, whatever the
alert's current status: the result is ok and the alert row is rewritten to
status resolved with `resolved_at` set to the call's time, overwriting any
earlier value; the only guard is ownership. -/
theorem resolve_by_owner_always_ok_sets_resolvedAt
    (st : Store) (aid caller now : Nat) (a : SOSAlert)
    (hfind : st.alerts.find? (fun b => b.id == aid) = some a)
    (hown : a.user_id = caller) :
    (resolveAlert aid caller now st).1 = ResolveResult.ok ∧
    ∀ b ∈ (resolveAlert aid caller now st).2.alerts, b.id = aid →
      b.status = AlertStatus.resolved ∧ b.resolved_at = some now := by
  constructor
  · simp only [resolveAlert, hfind]
    rw [if_pos hown]
  · intro b hb hbid
    simp only [resolveAlert, hfind] at hb
    rw [if_pos hown] at hb
    rcases List.mem_map.mp hb with ⟨b0, _, rfl⟩
    by_cases h0 : b0.id = aid
    · simp [h0]
    · have hf : (b0.id == aid) = false := by simpa using h0
      rw [hf] at hbid
      simp at hbid
      exact absurd hbid h0

theorem resolve_by_owner_witness :
    (resolveAlert 1 1 9 stResolved).1 = ResolveResult.ok ∧
    ∀ b ∈ (resolveAlert 1 1 9 stResolved).2.alerts, b.id = 1 →
      b.status = AlertStatus.resolved ∧ b.resolved_at = some 9 :=
  resolve_by_owner_always_ok_sets_resolvedAt stResolved 1 1 9 alertResolved rfl rfl

/-! ### C6: records per contact and the dispatch aggregate -/

/-- Contact of user 4 with both an app-user id and a phone number. -/
def contactC6 : Contact :=
  { id := 5, user_id := 4, contact_user_id := some 2, contact_name := "Bee",
    contact_phone := some "+2347000000000", contact_email := none, priority := 1 }

/-- Store holding that single contact and nothing else. -/
def stC6 : Store :=
  { alerts := [], notifications := [], contacts := [contactC6], nextAlertId := 1 }

/-- Environment in which the contact's user has a token and both transports
succeed. -/
def envC6 : DeliveryEnv :=
  { fcmToken := fun u => if u == 2 then some "tok2" else none,
    pushThrows := fun _ => false, now := 8 }

/-- Alert used for the standalone per-contact evaluation. -/
def alertC6 : SOSAlert :=
  { id := 1, user_id := 4, latitude := 1, longitude := 2, message := "x",
    status := AlertStatus.active, is_resolved := false, created_at := 8,
    resolved_at := none }

/-- C6 counterexample: a contact for which two channels are attempted (push
succeeds, then SMS is also sent) still yields a single `sos_notifications`
row — the route logs one record per contact, not one per attempted
channel. -/
theorem two_channel_contact_yields_single_record :
    (sendSOSNotification contactC6 alertC6 envC6).attempts.length = 2 ∧
    (triggerSOS 4 "Dan" (some 1) (some 2) none envC6 stC6).2.notifications.length = 1 ∧
    (triggerSOS 4 "Dan" (some 1) (some 2) none envC6 stC6).1 = TriggerResult.ok 1 1 1 :=
  ⟨rfl, rfl, rfl⟩

/-- C6 (amended): a trigger for a user with `N ≥ 1` contacts produces
exactly one NotificationRecord per contact — hence at least `N` in total,
appended regardless of outcome — and answers ok with
`totalContacts = N` and `notificationsSent ≤ totalContacts`. -/
theorem trigger_appends_one_record_per_contact_and_sent_le_total
    (uid : Nat) (userName : String) (la lo : Int) (msg : Option String)
    (env : DeliveryEnv) (st : Store) (hne : contactsFor uid st ≠ []) :
    ∃ sent,
      (triggerSOS uid userName (some la) (some lo) msg env st).1 =
        TriggerResult.ok st.nextAlertId sent (contactsFor uid st).length ∧
      sent ≤ (contactsFor uid st).length ∧
      (triggerSOS uid userName (some la) (some lo) msg env st).2.notifications.length =
        st.notifications.length + (contactsFor uid st).length := by
  have hempty : (contactsFor uid st).isEmpty = false := by
    cases h : contactsFor uid st with
    | nil => exact absurd h hne
    | cons c cs => rfl
  simp only [contactsFor] at hempty
  simp only [triggerSOS, contactsFor, hempty, Bool.false_eq_true, if_false]
  refine ⟨_, rfl, ?_, ?_⟩
  · exact le_trans (List.length_filter_le _ _) (le_of_eq (List.length_map _ _))
  · simp [List.length_append, List.length_map]

theorem trigger_records_witness :
    ∃ sent,
      (triggerSOS 4 "Dan" (some 1) (some 2) none envC6 stC6).1 =
        TriggerResult.ok stC6.nextAlertId sent (contactsFor 4 stC6).length ∧
      sent ≤ (contactsFor 4 stC6).length ∧
      (triggerSOS 4 "Dan" (some 1) (some 2) none envC6 stC6).2.notifications.length =
        stC6.notifications.length + (contactsFor 4 stC6).length :=
  trigger_appends_one_record_per_contact_and_sent_le_total 4 "Dan" 1 2 none envC6 stC6
    (by decide)

end SafeCircle
